import Mathlib

/-!
Verification of the Conversational Query Orchestration Engine of the
analytics-copilot repository (`nlp-querier`).

The development shallowly embeds the pipeline core:
* the SQL safety validator (`agent/tools/sql_validator_tool.py`),
* the conversation state (`agent/state.py`),
* the nine node functions (`agent/nodes/*.py`),
* the router functions and the step loop (`agent/graph.py`),
* the two entry points `run_agent_chat` and `continue_agent_chat`.

External collaborators (the LLM services, the schema tool, the SQL
executor, the PII redactor) are parameters of the embedding, collected in
a `Collaborators` record: each node consumes the collaborator outcome
exactly where the source calls the corresponding tool, and a Python
exception raised by a collaborator call is the `Except.error` /
`ExecOutcome.raises` / `Option.none` case of the corresponding parameter.
-/

namespace AnalyticsAgent

/-! ## Strings

SQL text is modelled as `String`.  `upperStr` is Python `str.upper`,
`lowerStr` is `str.lower`, `String.trim` stands for `str.strip`, and
`containsSub needle hay` is the Python substring test `needle in hay`. -/

def upperStr (s : String) : String := ⟨s.data.map Char.toUpper⟩

def lowerStr (s : String) : String := ⟨s.data.map Char.toLower⟩

/-- Python `str.strip`: drop whitespace from both ends. -/
def trimStr (s : String) : String :=
  ⟨((s.data.dropWhile Char.isWhitespace).reverse.dropWhile Char.isWhitespace).reverse⟩

/-- Python `str.startswith`. -/
def startsWithStr (s pre : String) : Bool := pre.data.isPrefixOf s.data

def containsSubAux (needle : List Char) : List Char → Bool
  | [] => needle.isPrefixOf []
  | c :: cs => needle.isPrefixOf (c :: cs) || containsSubAux needle cs

def containsSub (needle hay : String) : Bool :=
  containsSubAux needle.data hay.data

/-- Python truthiness of an optional string field: `None` and `""` are
falsy, any non-empty string is truthy. -/
def truthy : Option String → Bool
  | none => false
  | some s => !s.isEmpty

/-! ## SQL Safety Validator (`agent/tools/sql_validator_tool.py`) -/

/-- The schema information dictionary built by
`SQLValidatorTool._get_schema_info`: `tables` maps a table name to its
column names, `table_names` is the set of table names. -/
structure SchemaInfo where
  tables : List (String × List String)
  table_names : List String
deriving DecidableEq, Repr

/-- The schema object returned when there is no connection or when
introspection raises: the `tables` dictionary is empty. -/
def emptySchemaInfo : SchemaInfo := ⟨[], []⟩

/-- `SQLValidatorTool._get_schema_info`.  The database handle is
`none` when the tool was constructed without a connection, `some none`
when introspecting the catalog raises (the method catches the exception
and returns an empty schema), and `some (some si)` when the catalog is
read successfully. -/
def get_schema_info (db : Option (Option SchemaInfo)) : SchemaInfo :=
  match db with
  | none => emptySchemaInfo
  | some none => emptySchemaInfo
  | some (some si) => si

def dangerous_keywords : List String :=
  ["DROP", "DELETE", "UPDATE", "INSERT", "ALTER", "CREATE", "TRUNCATE"]

/-- The keyword gate loop of `SQLValidatorTool.validate`: the first
dangerous keyword occurring as a substring of the uppercased SQL, in
list order. -/
def findDangerous (sql_upper : String) : Option String :=
  dangerous_keywords.find? (fun kw => containsSub kw sql_upper)

def valid_query_starts : List String := ["SELECT", "WITH"]

/-- The shape gate of `SQLValidatorTool.validate`: the trimmed uppercased
statement must begin with `SELECT` or `WITH`. -/
def isValidQueryStart (sql_trimmed : String) : Bool :=
  valid_query_starts.any (fun p => startsWithStr sql_trimmed p)

/-- Outcome of the call `self._validate_schema_compliance(sql, schema_info)`:
`some (ok, msg)` is a normal return, `none` is a raised exception (the
caller catches it and continues with basic validation). -/
abbrev ComplianceFn := String → SchemaInfo → Option (Bool × String)

/-- `SQLValidatorTool.validate`.  Gate order as in the source: the
dangerous-keyword scan, then the SELECT/WITH shape check, then — only
when the schema dictionary is non-empty — the schema-compliance gate,
whose exceptions fall through to the final success return. -/
def validate (db : Option (Option SchemaInfo)) (compliance : ComplianceFn)
    (sql : String) : Bool × String :=
  let sql_upper := upperStr sql
  match findDangerous sql_upper with
  | some kw => (false, "SQL contains potentially dangerous keyword: " ++ kw)
  | none =>
    let sql_trimmed := trimStr sql_upper
    if isValidQueryStart sql_trimmed then
      let schema_info := get_schema_info db
      if schema_info.tables.isEmpty then
        (true, "SQL validation passed")
      else
        match compliance sql schema_info with
        | some r => r
        | none => (true, "SQL validation passed")
    else
      (false, "Only SELECT queries and CTEs (WITH clauses) are allowed")

/-! ## Conversation State (`agent/state.py`)

The `AgentState` TypedDict.  Optional string fields are `Option String`
(`some ""` is a present-but-empty value, distinguished from `none` just
as `""` is from `None`; both are falsy under `truthy`).  `history`
entries are `(role, content)` pairs.  The keys `validation_error` and
`sql_explanation` are written by the nodes even though the TypedDict
does not declare them; they are fields here like the others. -/

/-- An execution result as stored into the state by the execute node:
either the serialized dataframe dictionary `{type, data, columns, shape}`
(rows are lists of column/value pairs), a plain list of records, or any
other scalar value. -/
inductive ExecResult where
  | dataframe (data : List (List (String × String))) (columns : List String)
  | records (items : List String)
  | scalar (v : String)
deriving DecidableEq, Repr

structure AgentState where
  question : String
  history : List (String × String)
  schema : Option String
  generated_sql : Option String
  validated_sql : Option String
  last_sql : Option String
  execution_result : Option ExecResult
  execution_error : Option String
  validation_error : Option String
  sql_explanation : Option String
  visualization_path : Option String
  summary : Option String
  business_interpretation : Option String
  clarification_needed : Bool
  clarification_question : Option String
  user_clarification_response : Option String
  retry_count : Nat
  max_retries : Nat
  current_node : Option String
  completed_nodes : List String
  operation_not_permitted : Bool
  operation_feedback : Option String
deriving DecidableEq, Repr

/-- The initial state built by `run_agent_chat` (graph.py lines 438-456).
Keys absent from the literal (`validation_error`, `sql_explanation`,
`business_interpretation`, `operation_not_permitted`,
`operation_feedback`) read back through `state.get` with falsy
defaults, which is what the `none` / `false` values model. -/
def initial_state (question : String) (history : List (String × String))
    (max_retries : Nat) : AgentState :=
  { question := question
    history := history
    schema := none
    generated_sql := none
    validated_sql := none
    last_sql := none
    execution_result := none
    execution_error := none
    validation_error := none
    sql_explanation := none
    visualization_path := none
    summary := none
    business_interpretation := none
    clarification_needed := false
    clarification_question := none
    user_clarification_response := none
    retry_count := 0
    max_retries := max_retries
    current_node := none
    completed_nodes := []
    operation_not_permitted := false
    operation_feedback := none }

/-! ## External collaborators -/

/-- Outcome of the executor-tool call inside `execute_sql_node`:
`raises msg` is an exception anywhere in the node body (config loading,
tool construction, the query call), `errorResult msg` is a normal return
whose dictionary carries an `error` entry, and `ok r` is a successful
result already serialized (and PII-redacted, an opaque always-successful
transform). -/
inductive ExecOutcome where
  | raises (msg : String)
  | errorResult (msg : String)
  | ok (r : ExecResult)
deriving DecidableEq, Repr

/-- The collaborator outcomes a single run consumes, one field per
external call site. -/
structure Collaborators where
  /-- `IntentNode._llm_detect_ambiguities`: `some (reason, question)` when
  the LLM reports the request ambiguous, `none` when it reports it clear
  or when the call fails (the method catches its own exceptions and
  returns `None`, failing open). -/
  intentAmbiguity : AgentState → Option (String × String)
  /-- `SQLiteSchemaLookupTool.get_schema` inside `lookup_schema_node`:
  `Except.error e` is an exception in the node body. -/
  schemaLookup : Except String String
  /-- The SQL-generation tool inside `generate_sql_node` (Vertex AI with
  rule-based fallback): `Except.ok (sql, explanation)` is the final
  result dictionary, `Except.error e` an exception escaping to the node
  except-handler. -/
  sqlGen : AgentState → Except String (String × String)
  /-- The sqlite connection `validate_sql_node` hands to the validator
  (see `get_schema_info`). -/
  dbRead : Option (Option SchemaInfo)
  /-- The schema-compliance step of the validator. -/
  compliance : ComplianceFn
  /-- The executor-tool call inside `execute_sql_node`. -/
  executor : AgentState → ExecOutcome
  /-- The summary text produced inside `summarize_node` (LLM with
  fallback); `Except.error e` an exception escaping to the handler. -/
  summaryText : AgentState → Except String String
  /-- The interpretation text produced inside `interpret_results`;
  `Except.error e` an exception escaping to the handler. -/
  interpretText : AgentState → Except String String

/-! ## Node contracts (`agent/nodes/*.py`) -/

/-- `intent_node` / `IntentNode.__call__` (intent.py).  Sets the
clarification flags when the LLM reports ambiguity and appends `intent`
to `completed_nodes`.  No path writes `operation_not_permitted` or
`operation_feedback`. -/
def intent_node (c : Collaborators) (s : AgentState) : AgentState :=
  match c.intentAmbiguity s with
  | some rq =>
    { s with clarification_needed := true
             clarification_question := some rq.2
             completed_nodes := s.completed_nodes ++ ["intent"] }
  | none =>
    { s with completed_nodes := s.completed_nodes ++ ["intent"] }

def date_terms : List String :=
  ["date", "time", "when", "month", "year", "day", "recent", "latest",
   "last", "this", "current"]

def agg_terms : List String :=
  ["total", "sum", "count", "average", "max", "min", "revenue", "sales",
   "show", "get"]

def entity_terms : List String :=
  ["region", "country", "area", "location", "product", "category",
   "customer", "client"]

def ref_terms : List String :=
  ["it", "this", "that", "they", "them", "previous", "above", "earlier"]

/-- `ClarificationNode._generate_clarification_question`: heuristic
selection of a canned question from substring scans of the lowercased
question (the texts stand for the source message literals). -/
def generate_clarification_question (s : AgentState) : String :=
  let q := lowerStr s.question
  if date_terms.any (fun t => containsSub t q) then
    "I notice you are asking about dates or time periods. Could you please specify the date range and grouping?"
  else if agg_terms.any (fun t => containsSub t q) then
    "I see you want data summarized. Could you clarify the calculation, the grouping and any filters?"
  else if entity_terms.any (fun t => containsSub t q) then
    "Your query mentions entities that could be interpreted different ways. Please specify which regions, products, or categories."
  else if decide (1 < s.history.length) && ref_terms.any (fun t => containsSub t q) then
    "I see you are referring to previous results or data. Could you clarify which data from our previous analysis to use?"
  else
    "I need some clarification to better understand your request. Could you provide more specific details?"

/-- `clarification_node` / `ClarificationNode.__call__`.  With a user
response present it merges the response into the question, clears the
clarification flags and returns without touching `completed_nodes`
(the early return at clarification.py line 44); otherwise it generates
and records the clarification question and appends `clarification`. -/
def clarification_node (s : AgentState) : AgentState :=
  let s0 := { s with current_node := some "clarification" }
  if truthy s.user_clarification_response then
    let ur := s.user_clarification_response.getD ""
    { s0 with question := trimStr (s0.question ++ " " ++ ur)
              clarification_needed := false
              clarification_question := none
              history := s0.history ++ [("user", ur)] }
  else
    let s1 :=
      if s.clarification_needed && !(truthy s.clarification_question) then
        { s0 with clarification_question := some (generate_clarification_question s) }
      else s0
    let s2 :=
      if truthy s1.clarification_question then
        { s1 with history := s1.history ++ [("assistant", s1.clarification_question.getD "")] }
      else s1
    { s2 with completed_nodes := s2.completed_nodes ++ ["clarification"] }

/-- `lookup_schema_node` (lookup_schema.py).  On success writes the
schema text and appends `lookup_schema`; on an exception writes an error
string into `schema` and returns without appending. -/
def lookup_schema_node (c : Collaborators) (s : AgentState) : AgentState :=
  match c.schemaLookup with
  | Except.ok t =>
    { s with schema := some t
             current_node := some "lookup_schema"
             completed_nodes := s.completed_nodes ++ ["lookup_schema"] }
  | Except.error e =>
    { s with schema := some ("Error retrieving schema: " ++ e)
             current_node := some "lookup_schema" }

/-- `generate_sql_node` (generate_sql.py).  Early-returns (without
appending to `completed_nodes`) when the question or the schema is
missing; on an exception records the error in `sql_explanation` without
appending; on a normal tool result records the SQL and appends
`generate_sql`. -/
def generate_sql_node (c : Collaborators) (s : AgentState) : AgentState :=
  let s0 := { s with current_node := some "generate_sql" }
  if s.question.isEmpty then
    { s0 with generated_sql := some ""
              sql_explanation := some "No question provided" }
  else if !(truthy s.schema) then
    { s0 with generated_sql := some ""
              sql_explanation := some "No schema available" }
  else
    match c.sqlGen s with
    | Except.ok r =>
      { s0 with generated_sql := some r.1
                sql_explanation := some r.2
                completed_nodes := s0.completed_nodes ++ ["generate_sql"] }
    | Except.error e =>
      { s0 with generated_sql := some ""
                sql_explanation := some ("Error generating SQL: " ++ e) }

/-- `validate_sql_node` (validate_sql.py).  Early-returns (without
appending) when there is no SQL; otherwise runs the validator, records
`validated_sql` or `validation_error`, and appends `validate_sql`. -/
def validate_sql_node (c : Collaborators) (s : AgentState) : AgentState :=
  let s0 := { s with current_node := some "validate_sql" }
  if !(truthy s.generated_sql) then
    { s0 with validated_sql := some ""
              validation_error := some "No SQL to validate" }
  else
    let gsql := s.generated_sql.getD ""
    let vr := validate c.dbRead c.compliance gsql
    let s1 :=
      if vr.1 then
        { s0 with validated_sql := some gsql, validation_error := none }
      else
        { s0 with validated_sql := some "", validation_error := some vr.2 }
    { s1 with completed_nodes := s1.completed_nodes ++ ["validate_sql"] }

/-- `execute_sql_node` (execute_sql.py).  Checks `validation_error`
first and refuses to execute when it is set; early-returns (without
appending) when there is no validated SQL; otherwise consults the
executor and records the result or the error. -/
def execute_sql_node (c : Collaborators) (s : AgentState) : AgentState :=
  if truthy s.validation_error then
    { s with current_node := some "execute_sql"
             execution_result := none
             execution_error :=
               some ("Query blocked by validation: " ++ s.validation_error.getD "")
             completed_nodes := s.completed_nodes ++ ["execute_sql"] }
  else
    let s0 := { s with current_node := some "execute_sql" }
    if !(truthy s.validated_sql) then
      { s0 with execution_result := none
                execution_error := some "No validated SQL query to execute" }
    else
      match c.executor s with
      | ExecOutcome.raises msg =>
        { s with execution_result := none
                 execution_error := some msg
                 current_node := some "execute_sql" }
      | ExecOutcome.errorResult msg =>
        { s0 with execution_result := none
                  execution_error := some msg
                  completed_nodes := s0.completed_nodes ++ ["execute_sql"] }
      | ExecOutcome.ok r =>
        { s0 with execution_result := some r
                  execution_error := none
                  completed_nodes := s0.completed_nodes ++ ["execute_sql"] }

/-- `fix_sql_error_node` (fix_sql_error.py lines 55-86): the node wired
into the graph.  With no execution error or no prior SQL it returns the
state unchanged; otherwise it clears `generated_sql` to the empty string
and records an explanation, leaving `execution_error` set.  It never
calls `SQLErrorFixTool` and never appends to `completed_nodes`. -/
def fix_sql_error_node (s : AgentState) : AgentState :=
  if !(truthy s.execution_error) || !(truthy s.validated_sql) then s
  else
    { s with generated_sql := some ""
             sql_explanation :=
               some ("SQL error needs manual fixing: " ++ s.execution_error.getD "") }

/-- `summarize_node` (summarize.py).  Both the normal path and the
exception path append `summarize`; only the normal path appends the
summary to the history and sets `current_node`. -/
def summarize_node (c : Collaborators) (s : AgentState) : AgentState :=
  match c.summaryText s with
  | Except.ok t =>
    { s with current_node := some "summarize"
             history := s.history ++ [("assistant", t)]
             summary := some t
             completed_nodes := s.completed_nodes ++ ["summarize"] }
  | Except.error e =>
    { s with summary := some ("Error creating summary: " ++ e)
             completed_nodes := s.completed_nodes ++ ["summarize"] }

/-- `interpret_results` (interpret_results.py).  Every path appends
`interpret_results`; the interpreter runs only for a non-empty
serialized dataframe. -/
def interpret_results_node (c : Collaborators) (s : AgentState) : AgentState :=
  let s0 := { s with current_node := some "interpret_results" }
  match s.execution_result with
  | none =>
    { s0 with business_interpretation := some "No results available to interpret."
              completed_nodes := s0.completed_nodes ++ ["interpret_results"] }
  | some (ExecResult.dataframe data _) =>
    if data.isEmpty then
      { s0 with business_interpretation :=
                  some "Unable to interpret results: unexpected data format."
                completed_nodes := s0.completed_nodes ++ ["interpret_results"] }
    else
      match c.interpretText s with
      | Except.ok t =>
        { s0 with business_interpretation := some t
                  completed_nodes := s0.completed_nodes ++ ["interpret_results"] }
      | Except.error e =>
        { s0 with business_interpretation :=
                    some ("Error generating business interpretation: " ++ e)
                  completed_nodes := s0.completed_nodes ++ ["interpret_results"] }
  | some _ =>
    { s0 with business_interpretation :=
                some "Unable to interpret results: unexpected result type."
              completed_nodes := s0.completed_nodes ++ ["interpret_results"] }

/-! ## Step Router (`agent/graph.py` lines 296-415) -/

/-- The router return labels across all five decision functions. -/
inductive Route where
  | clarification
  | lookup_schema
  | operation_not_permitted
  | wait_for_user
  | execute_sql
  | retry_generation
  | error
  | summarize
  | fix_error
  | validate_sql
deriving DecidableEq, Repr

/-- `decide_after_intent`: the security block is checked first, then
ambiguity, then the normal path. -/
def decide_after_intent (s : AgentState) : Route :=
  if s.operation_not_permitted then Route.operation_not_permitted
  else if s.clarification_needed then Route.clarification
  else Route.lookup_schema

/-- `decide_after_clarification`. -/
def decide_after_clarification (s : AgentState) : Route :=
  if truthy s.user_clarification_response then Route.lookup_schema
  else Route.wait_for_user

/-- `decide_after_validation`.  Note that the function only reads
`retry_count`; no code anywhere in the repository writes it. -/
def decide_after_validation (s : AgentState) : Route :=
  if truthy s.validated_sql then Route.execute_sql
  else if s.retry_count < s.max_retries then Route.retry_generation
  else Route.error

/-- The defensive `has_results` computation of `decide_after_execution`
over the result shapes reachable in the state (the serialized dataframe
dictionary, a plain list, any other value). -/
def has_results : Option ExecResult → Bool
  | none => false
  | some (ExecResult.dataframe data _) => !data.isEmpty
  | some (ExecResult.records items) => !items.isEmpty
  | some (ExecResult.scalar _) => true

/-- `decide_after_execution`. -/
def decide_after_execution (s : AgentState) : Route :=
  if has_results s.execution_result then Route.summarize
  else if truthy s.execution_error && decide (s.retry_count < s.max_retries) then
    Route.fix_error
  else Route.error

/-- `decide_after_error_fix`. -/
def decide_after_error_fix (s : AgentState) : Route :=
  if truthy s.generated_sql && decide (s.retry_count < s.max_retries) then
    Route.validate_sql
  else Route.error

/-! ## Orchestration Engine (`agent/graph.py`) -/

/-- The nine graph nodes of `create_analytics_graph`. -/
inductive NodeName where
  | intent
  | clarification
  | lookup_schema
  | generate_sql
  | validate_sql
  | execute_sql
  | fix_sql_error
  | summarize
  | interpret_results
deriving DecidableEq, Repr

/-- Dispatch a node invocation. -/
def applyNode (c : Collaborators) (n : NodeName) (s : AgentState) : AgentState :=
  match n with
  | NodeName.intent => intent_node c s
  | NodeName.clarification => clarification_node s
  | NodeName.lookup_schema => lookup_schema_node c s
  | NodeName.generate_sql => generate_sql_node c s
  | NodeName.validate_sql => validate_sql_node c s
  | NodeName.execute_sql => execute_sql_node c s
  | NodeName.fix_sql_error => fix_sql_error_node s
  | NodeName.summarize => summarize_node c s
  | NodeName.interpret_results => interpret_results_node c s

/-- The edge map of `create_analytics_graph`: conditional edges through
the routers, unconditional edges for lookup/generate/summarize, and
`none` for every edge into `END` (the security halt, the wait-for-user
pause, the retry-exhaustion exits, and the normal completion). -/
def nextNode (n : NodeName) (s : AgentState) : Option NodeName :=
  match n with
  | NodeName.intent =>
    match decide_after_intent s with
    | Route.clarification => some NodeName.clarification
    | Route.lookup_schema => some NodeName.lookup_schema
    | _ => none
  | NodeName.clarification =>
    match decide_after_clarification s with
    | Route.lookup_schema => some NodeName.lookup_schema
    | _ => none
  | NodeName.lookup_schema => some NodeName.generate_sql
  | NodeName.generate_sql => some NodeName.validate_sql
  | NodeName.validate_sql =>
    match decide_after_validation s with
    | Route.execute_sql => some NodeName.execute_sql
    | Route.retry_generation => some NodeName.generate_sql
    | _ => none
  | NodeName.execute_sql =>
    match decide_after_execution s with
    | Route.summarize => some NodeName.summarize
    | Route.fix_error => some NodeName.fix_sql_error
    | _ => none
  | NodeName.fix_sql_error =>
    match decide_after_error_fix s with
    | Route.validate_sql => some NodeName.validate_sql
    | _ => none
  | NodeName.summarize => some NodeName.interpret_results
  | NodeName.interpret_results => none

/-- Outcome of the step loop: the final state, the executed node
sequence, and whether the graph reached `END` (`finished = false` means
the recursion limit cut the run off and the engine raises
`GraphRecursionError`). -/
structure RunOutcome where
  state : AgentState
  trace : List NodeName
  finished : Bool
deriving DecidableEq, Repr

/-- The step loop of `app.stream`: invoke the current node, consult the
router, continue until `END` or until the recursion limit (the fuel) is
exhausted. -/
def runLoop (c : Collaborators) : Nat → NodeName → AgentState → RunOutcome
  | 0, _, s => ⟨s, [], false⟩
  | fuel + 1, n, s =>
    let s2 := applyNode c n s
    match nextNode n s2 with
    | none => ⟨s2, [n], true⟩
    | some n2 =>
      let r := runLoop c fuel n2 s2
      ⟨r.state, n :: r.trace, r.finished⟩

/-- Number of backward router transitions in an executed node sequence:
a `validate_sql` step followed by `generate_sql` (the GenerateSQL
retry) or an `execute_sql` step followed by `fix_sql_error`. -/
def countBackward : List NodeName → Nat
  | [] => 0
  | [_] => 0
  | a :: b :: rest =>
    (if a = NodeName.validate_sql ∧ b = NodeName.generate_sql then 1 else 0) +
    (if a = NodeName.execute_sql ∧ b = NodeName.fix_sql_error then 1 else 0) +
    countBackward (b :: rest)

/-- The result dictionary returned by `run_agent_chat` (and, for the
resume entry point, by `continue_agent_chat`). -/
structure RunResult where
  error : Option String
  operation_not_permitted : Bool
  sql : Option String
  summary : Option String
  business_interpretation : Option String
  history : List (String × String)
  clarification_question : Option String
  clarification_needed : Bool
  execution_result : Option ExecResult
  execution_error : Option String
  completed_nodes : List String
deriving DecidableEq, Repr

/-- `run_agent_chat` (graph.py lines 418-581): build the initial state,
run the step loop from the `intent` entry point, and assemble the result
dictionary from the final state; the security branch builds the reduced
dictionary, and a `GraphRecursionError` from an exhausted recursion
limit is caught by the broad except-handler, which returns only an
error string and the input history. -/
def run_agent_chat (c : Collaborators) (question : String)
    (history : List (String × String)) (max_retries recursion_limit : Nat) :
    RunResult :=
  let r := runLoop c recursion_limit NodeName.intent
    (initial_state question history max_retries)
  if r.finished then
    let rs := r.state
    if rs.operation_not_permitted then
      { error := rs.operation_feedback
        operation_not_permitted := true
        sql := none
        summary := none
        business_interpretation := none
        history := rs.history
        clarification_question := none
        clarification_needed := false
        execution_result := none
        execution_error := none
        completed_nodes := rs.completed_nodes }
    else
      { error := none
        operation_not_permitted := false
        sql := rs.validated_sql
        summary := rs.summary
        business_interpretation := rs.business_interpretation
        history := rs.history
        clarification_question := rs.clarification_question
        clarification_needed := rs.clarification_needed
        execution_result := rs.execution_result
        execution_error := rs.execution_error
        completed_nodes := rs.completed_nodes }
  else
    { error := some "GraphRecursionError"
      operation_not_permitted := false
      sql := none
      summary := none
      business_interpretation := none
      history := history
      clarification_question := none
      clarification_needed := false
      execution_result := none
      execution_error := none
      completed_nodes := [] }

/-- The result dictionary returned by `continue_agent_chat` (graph.py
lines 622-630): no security branch and no clarification fields. -/
structure ResumeResult where
  error : Option String
  sql : Option String
  summary : Option String
  business_interpretation : Option String
  visualization_path : Option String
  history : List (String × String)
  execution_error : Option String
  completed_nodes : List String
deriving DecidableEq, Repr

/-- The update dictionary `continue_agent_chat` streams into the graph:
only the clarification fields carry values; every other channel is
unset and reads back through `state.get` with its falsy default. -/
def resume_update_state (user_response : String) : AgentState :=
  { initial_state "" [] 3 with
      user_clarification_response := some user_response
      clarification_needed := false }

/-- `continue_agent_chat` (graph.py lines 584-640).  The function
compiles a fresh graph with a freshly constructed in-memory
checkpointer, so the `checkpoint_store` of persisted conversations is
never consulted and the `thread_id` is never looked up: the update
dictionary starts a new run from the `intent` entry point (under the
default recursion limit of 25), and an exhausted recursion limit is
caught by the except-handler, which returns only an error string. -/
def continue_agent_chat (c : Collaborators)
    (checkpoint_store : List (String × AgentState))
    (thread_id user_response : String) : ResumeResult :=
  let r := runLoop c 25 NodeName.intent (resume_update_state user_response)
  if r.finished then
    { error := none
      sql := r.state.validated_sql
      summary := r.state.summary
      business_interpretation := r.state.business_interpretation
      visualization_path := r.state.visualization_path
      history := r.state.history
      execution_error := r.state.execution_error
      completed_nodes := r.state.completed_nodes }
  else
    { error := some "GraphRecursionError"
      sql := none
      summary := none
      business_interpretation := none
      visualization_path := none
      history := []
      execution_error := none
      completed_nodes := [] }

/-! ## Concrete collaborator instances used in the evaluations -/

/-- A benign collaborator set: the intent LLM reports every question
clear, schema lookup succeeds, generation yields a plain SELECT, no
database connection is available to the validator, execution returns a
one-row dataframe, and the narrative tools succeed. -/
def benignCollab : Collaborators :=
  { intentAmbiguity := fun _ => none
    schemaLookup := Except.ok "transactions(id, amount)"
    sqlGen := fun _ => Except.ok ("SELECT * FROM transactions", "reads all rows")
    dbRead := none
    compliance := fun _ _ => some (true, "Schema validation passed")
    executor := fun _ => ExecOutcome.ok
      (ExecResult.dataframe [[("id", "1"), ("amount", "10")]] ["id", "amount"])
    summaryText := fun _ => Except.ok "The query lists all transactions."
    interpretText := fun _ => Except.ok "Transaction volume is normal." }

/-- A collaborator set whose generator always produces a statement the
keyword gate rejects. -/
def badGenCollab : Collaborators :=
  { benignCollab with sqlGen := fun _ => Except.ok ("DROP T", "oops") }

/-! ## Helper lemmas -/

/-- No node invocation writes `operation_not_permitted`. -/
theorem applyNode_operation_not_permitted (c : Collaborators) (n : NodeName)
    (s : AgentState) :
    (applyNode c n s).operation_not_permitted = s.operation_not_permitted := by
  cases n <;>
    simp only [applyNode, intent_node, clarification_node, lookup_schema_node,
      generate_sql_node, validate_sql_node, execute_sql_node, fix_sql_error_node,
      summarize_node, interpret_results_node] <;>
    (repeat' split) <;> rfl

/-- No node invocation writes `retry_count`. -/
theorem applyNode_retry_count (c : Collaborators) (n : NodeName) (s : AgentState) :
    (applyNode c n s).retry_count = s.retry_count := by
  cases n <;>
    simp only [applyNode, intent_node, clarification_node, lookup_schema_node,
      generate_sql_node, validate_sql_node, execute_sql_node, fix_sql_error_node,
      summarize_node, interpret_results_node] <;>
    (repeat' split) <;> rfl

/-- The step loop preserves `operation_not_permitted`. -/
theorem runLoop_operation_not_permitted (c : Collaborators) :
    ∀ (fuel : Nat) (n : NodeName) (s : AgentState),
      (runLoop c fuel n s).state.operation_not_permitted = s.operation_not_permitted := by
  intro fuel
  induction fuel with
  | zero => intro n s; rfl
  | succ k ih =>
    intro n s
    simp only [runLoop]
    cases hn : nextNode n (applyNode c n s) with
    | none => simpa using applyNode_operation_not_permitted c n s
    | some n2 =>
      simp only []
      rw [ih n2 (applyNode c n s), applyNode_operation_not_permitted]

/-- The step loop preserves `retry_count`. -/
theorem runLoop_retry_count (c : Collaborators) :
    ∀ (fuel : Nat) (n : NodeName) (s : AgentState),
      (runLoop c fuel n s).state.retry_count = s.retry_count := by
  intro fuel
  induction fuel with
  | zero => intro n s; rfl
  | succ k ih =>
    intro n s
    simp only [runLoop]
    cases hn : nextNode n (applyNode c n s) with
    | none => simpa using applyNode_retry_count c n s
    | some n2 =>
      simp only []
      rw [ih n2 (applyNode c n s), applyNode_retry_count]

/-- An accepted statement passed the keyword gate and the shape gate. -/
theorem validate_true_elim (db : Option (Option SchemaInfo)) (comp : ComplianceFn)
    (sql : String) (h : (validate db comp sql).1 = true) :
    findDangerous (upperStr sql) = none ∧
      isValidQueryStart (trimStr (upperStr sql)) = true := by
  unfold validate at h
  cases hk : findDangerous (upperStr sql) with
  | some kw => simp only [hk] at h; exact absurd h (by simp)
  | none =>
    simp only [hk] at h
    by_cases hs : isValidQueryStart (trimStr (upperStr sql))
    · exact ⟨rfl, hs⟩
    · simp [hs] at h

/-- With no live catalog, a statement passing the first two gates is
accepted. -/
theorem validate_none_of_gates (comp : ComplianceFn) (sql : String)
    (h1 : findDangerous (upperStr sql) = none)
    (h2 : isValidQueryStart (trimStr (upperStr sql)) = true) :
    validate none comp sql = (true, "SQL validation passed") := by
  simp [validate, h1, h2, get_schema_info, emptySchemaInfo]

/-! ## Claim theorems -/

/-- C4: for every State with both `operation_not_permitted = true` and
`clarification_needed = true`, `decide_after_intent` returns the
security-halt route and never Clarification — the security flag is
checked first with highest priority; otherwise `clarification_needed`
routes to Clarification, and otherwise to SchemaLookup. -/
theorem decide_after_intent_security_precedence (s : AgentState) :
    (s.operation_not_permitted = true → s.clarification_needed = true →
      decide_after_intent s = Route.operation_not_permitted ∧
        decide_after_intent s ≠ Route.clarification) ∧
    (s.operation_not_permitted = false → s.clarification_needed = true →
      decide_after_intent s = Route.clarification) ∧
    (s.operation_not_permitted = false → s.clarification_needed = false →
      decide_after_intent s = Route.lookup_schema) := by
  refine ⟨fun h1 h2 => ?_, fun h1 h2 => ?_, fun h1 h2 => ?_⟩ <;>
    simp [decide_after_intent, h1, h2]

/-- Witness for C4 at concrete states: with both flags set the route is
the security halt; with only ambiguity it is Clarification; with
neither it is SchemaLookup. -/
theorem decide_after_intent_security_precedence_witness :
    decide_after_intent
        { initial_state "delete all transactions" [] 3 with
            operation_not_permitted := true, clarification_needed := true } =
      Route.operation_not_permitted ∧
    decide_after_intent
        { initial_state "show data" [] 3 with clarification_needed := true } =
      Route.clarification ∧
    decide_after_intent (initial_state "total sales" [] 3) = Route.lookup_schema :=
  ⟨((decide_after_intent_security_precedence _).1 rfl rfl).1,
   (decide_after_intent_security_precedence _).2.1 rfl rfl,
   (decide_after_intent_security_precedence _).2.2 rfl rfl⟩

/-- C5: whenever `validation_error` is set (non-empty), the ExecuteSQL
node refuses to run the statement — the result is independent of the
executor collaborator, which is never consulted — and instead records a
blocked `execution_error`, leaves `execution_result` unset, and appends
itself to `completed_nodes`; this holds even when `validated_sql` is
non-empty. -/
theorem execute_sql_refuses_on_validation_error (c : Collaborators)
    (s : AgentState) (h : truthy s.validation_error = true) :
    execute_sql_node c s =
      { s with current_node := some "execute_sql"
               execution_result := none
               execution_error :=
                 some ("Query blocked by validation: " ++ s.validation_error.getD "")
               completed_nodes := s.completed_nodes ++ ["execute_sql"] } := by
  simp [execute_sql_node, h]

/-- Concrete state for the C5 witness: a validation error is recorded
while `validated_sql` is nevertheless non-empty. -/
def blockedState : AgentState :=
  { initial_state "drop the table" [] 3 with
      validation_error := some "SQL contains potentially dangerous keyword: DROP"
      validated_sql := some "DROP TABLE customers" }

/-- Witness for C5 at a concrete state with non-empty `validated_sql`. -/
theorem execute_sql_refuses_on_validation_error_witness :
    truthy blockedState.validation_error = true ∧
    truthy blockedState.validated_sql = true ∧
    execute_sql_node benignCollab blockedState =
      { blockedState with
          current_node := some "execute_sql"
          execution_result := none
          execution_error :=
            some ("Query blocked by validation: " ++ blockedState.validation_error.getD "")
          completed_nodes := blockedState.completed_nodes ++ ["execute_sql"] } :=
  ⟨by decide, by decide,
   execute_sql_refuses_on_validation_error benignCollab blockedState (by decide)⟩

/-- C6: the validator applies its gates in order, short-circuiting on
the first failure.  Every statement whose uppercased text contains one
of the seven dangerous keywords anywhere is rejected with the offending
keyword named, regardless of catalog or compliance behaviour; every
keyword-free statement whose trimmed uppercased text does not begin
with SELECT or WITH is rejected with the only-read-queries reason. -/
theorem validate_gate_order (db : Option (Option SchemaInfo)) (comp : ComplianceFn)
    (sql : String) :
    (∀ kw, kw ∈ dangerous_keywords → containsSub kw (upperStr sql) = true →
      (validate db comp sql).1 = false ∧
      ∃ kw2, kw2 ∈ dangerous_keywords ∧ containsSub kw2 (upperStr sql) = true ∧
        (validate db comp sql).2 =
          "SQL contains potentially dangerous keyword: " ++ kw2) ∧
    ((∀ kw, kw ∈ dangerous_keywords → containsSub kw (upperStr sql) = false) →
      isValidQueryStart (trimStr (upperStr sql)) = false →
      validate db comp sql =
        (false, "Only SELECT queries and CTEs (WITH clauses) are allowed")) := by
  constructor
  · intro kw hmem hc
    have hsome : (findDangerous (upperStr sql)).isSome := by
      unfold findDangerous
      exact List.find?_isSome.2 ⟨kw, hmem, hc⟩
    obtain ⟨kw2, hk2⟩ := Option.isSome_iff_exists.1 hsome
    have hk2' : dangerous_keywords.find? (fun kw => containsSub kw (upperStr sql)) =
        some kw2 := hk2
    have hmem2 : kw2 ∈ dangerous_keywords := List.mem_of_find?_eq_some hk2'
    have hc2 : containsSub kw2 (upperStr sql) = true := by
      simpa using List.find?_some hk2'
    refine ⟨by simp [validate, hk2], kw2, hmem2, hc2, by simp [validate, hk2]⟩
  · intro hnone hshape
    have h0 : findDangerous (upperStr sql) = none := by
      unfold findDangerous
      exact List.find?_eq_none.2 fun x hx => by simp [hnone x hx]
    simp [validate, h0, hshape]

/-- Witness for C6: a DROP statement is rejected with DROP named, and a
SHOW statement is rejected by the shape gate. -/
theorem validate_gate_order_witness :
    (validate none benignCollab.compliance "DROP TABLE customers").1 = false ∧
    (∃ kw2, kw2 ∈ dangerous_keywords ∧
      containsSub kw2 (upperStr "DROP TABLE customers") = true ∧
      (validate none benignCollab.compliance "DROP TABLE customers").2 =
        "SQL contains potentially dangerous keyword: " ++ kw2) ∧
    validate none benignCollab.compliance "SHOW TABLES" =
      (false, "Only SELECT queries and CTEs (WITH clauses) are allowed") :=
  ⟨((validate_gate_order none benignCollab.compliance "DROP TABLE customers").1
      "DROP" (by decide) (by decide)).1,
   ((validate_gate_order none benignCollab.compliance "DROP TABLE customers").1
      "DROP" (by decide) (by decide)).2,
   (validate_gate_order none benignCollab.compliance "SHOW TABLES").2
      (by decide) (by decide)⟩

/-- C7: validator monotonicity.  A statement containing a dangerous
keyword is rejected whatever the catalog handle and compliance step;
and every statement accepted under any catalog remains accepted when
re-validated without one — the schema-compliance gate only narrows
acceptance. -/
theorem validate_monotone :
    (∀ (db : Option (Option SchemaInfo)) (comp : ComplianceFn) (sql kw : String),
      kw ∈ dangerous_keywords → containsSub kw (upperStr sql) = true →
      (validate db comp sql).1 = false) ∧
    (∀ (db : Option (Option SchemaInfo)) (comp comp2 : ComplianceFn) (sql : String),
      (validate db comp sql).1 = true → (validate none comp2 sql).1 = true) := by
  constructor
  · intro db comp sql kw hmem hc
    have hsome : (findDangerous (upperStr sql)).isSome := by
      unfold findDangerous
      exact List.find?_isSome.2 ⟨kw, hmem, hc⟩
    obtain ⟨kw2, hk2⟩ := Option.isSome_iff_exists.1 hsome
    simp [validate, hk2]
  · intro db comp comp2 sql h
    obtain ⟨h1, h2⟩ := validate_true_elim db comp sql h
    rw [validate_none_of_gates comp2 sql h1 h2]

/-- Concrete live catalog for the C7 and C10 witnesses. -/
def liveCatalog : SchemaInfo :=
  ⟨[("transactions", ["id", "amount"])], ["transactions"]⟩

/-- Witness for C7: a SELECT accepted against a live catalog stays
accepted with no catalog, and a DROP is rejected under a live catalog
as well as without one. -/
theorem validate_monotone_witness :
    (validate (some (some liveCatalog)) benignCollab.compliance
        "SELECT id FROM transactions").1 = true ∧
    (validate none benignCollab.compliance "SELECT id FROM transactions").1 = true ∧
    (validate (some (some liveCatalog)) benignCollab.compliance
        "DROP TABLE transactions").1 = false ∧
    (validate none benignCollab.compliance "DROP TABLE transactions").1 = false :=
  ⟨by decide,
   validate_monotone.2 (some (some liveCatalog)) benignCollab.compliance
     benignCollab.compliance "SELECT id FROM transactions" (by decide),
   validate_monotone.1 (some (some liveCatalog)) benignCollab.compliance
     "DROP TABLE transactions" "DROP" (by decide) (by decide),
   validate_monotone.1 none benignCollab.compliance
     "DROP TABLE transactions" "DROP" (by decide) (by decide)⟩

/-- C10: the validator fails open on internal errors of the
schema-compliance gate.  For a statement passing the keyword and shape
gates, an exception raised by the compliance step yields success, and a
failure while reading the catalog (which leaves the schema dictionary
empty) also yields success — a catalog error can never cause a
read-only query to be rejected. -/
theorem validator_fails_open (db : Option (Option SchemaInfo)) (comp : ComplianceFn)
    (sql : String) (h1 : findDangerous (upperStr sql) = none)
    (h2 : isValidQueryStart (trimStr (upperStr sql)) = true) :
    (comp sql (get_schema_info db) = none →
      validate db comp sql = (true, "SQL validation passed")) ∧
    validate (some none) comp sql = (true, "SQL validation passed") := by
  constructor
  · intro hcomp
    by_cases ht : (get_schema_info db).tables.isEmpty <;>
      simp [validate, h1, h2, ht, hcomp]
  · simp [validate, h1, h2, get_schema_info, emptySchemaInfo]

/-- A compliance step that always raises, for the C10 witness. -/
def raisingCompliance : ComplianceFn := fun _ _ => none

/-- Witness for C10: with a live non-empty catalog and a compliance
step that raises, a plain SELECT is accepted; the same SELECT is
accepted when catalog introspection itself failed. -/
theorem validator_fails_open_witness :
    findDangerous (upperStr "SELECT id FROM transactions") = none ∧
    isValidQueryStart (trimStr (upperStr "SELECT id FROM transactions")) = true ∧
    validate (some (some liveCatalog)) raisingCompliance
        "SELECT id FROM transactions" = (true, "SQL validation passed") ∧
    validate (some none) raisingCompliance "SELECT id FROM transactions" =
      (true, "SQL validation passed") :=
  ⟨by decide, by decide,
   (validator_fails_open (some (some liveCatalog)) raisingCompliance
      "SELECT id FROM transactions" (by decide) (by decide)).1 rfl,
   (validator_fails_open (some (some liveCatalog)) raisingCompliance
      "SELECT id FROM transactions" (by decide) (by decide)).2⟩

/-- Concrete state for C8: an execution error with a prior validated
statement present. -/
def failedExecState : AgentState :=
  { initial_state "show column a" [] 3 with
      generated_sql := some "SELECT a FROM t"
      validated_sql := some "SELECT a FROM t"
      execution_error := some "no such column: a" }

/-- C8 (code bug): the FixSQLError node wired into the graph is a stub.
At a state with an execution error and a prior SQL it never calls the
error-correction collaborator; it clears `generated_sql` to the empty
string instead of writing a corrected statement, it leaves
`execution_error` set on every input, and the subsequent router
decision is the error exit, so control does not return to ValidateSQL. -/
theorem fix_sql_error_is_stub :
    fix_sql_error_node failedExecState =
      { failedExecState with
          generated_sql := some ""
          sql_explanation :=
            some ("SQL error needs manual fixing: " ++
              failedExecState.execution_error.getD "") } ∧
    (fix_sql_error_node failedExecState).execution_error =
      some "no such column: a" ∧
    (∀ s : AgentState, (fix_sql_error_node s).execution_error = s.execution_error) ∧
    decide_after_error_fix (fix_sql_error_node failedExecState) = Route.error := by
  refine ⟨by decide, by decide, ?_, by decide⟩
  intro s
  unfold fix_sql_error_node
  split <;> rfl

/-- Concrete state for the C9 counterexample: the execute step failed
and the graph hands the state to the FixSQLError node. -/
def fixInputState : AgentState :=
  { initial_state "total sales" [] 3 with
      generated_sql := some "SELECT x FROM t"
      validated_sql := some "SELECT x FROM t"
      execution_error := some "no such column: x"
      completed_nodes :=
        ["intent", "lookup_schema", "generate_sql", "validate_sql", "execute_sql"] }

/-- C9 counterexample: invoking the FixSQLError node on a reachable
state leaves `completed_nodes` unchanged — the node does not append its
own name, refuting the exactly-once append for all nine nodes. -/
theorem completed_nodes_counterexample :
    (fix_sql_error_node fixInputState).completed_nodes =
      fixInputState.completed_nodes ∧
    (fix_sql_error_node fixInputState).completed_nodes ≠
      fixInputState.completed_nodes ++ ["fix_sql_error"] := by
  constructor <;> decide

/-- C9 amended: the append discipline that actually holds.  Intent,
Summarize and InterpretResults append their own name exactly once on
every path; Clarification appends exactly once unless it is processing
a user response (then it appends nothing); SchemaLookup, GenerateSQL,
ValidateSQL and ExecuteSQL append exactly once on their normal paths
but not on their early-return or exception paths; FixSQLError never
appends. -/
theorem completed_nodes_append_discipline (c : Collaborators) (s : AgentState) :
    ((intent_node c s).completed_nodes = s.completed_nodes ++ ["intent"]) ∧
    ((clarification_node s).completed_nodes =
      if truthy s.user_clarification_response then s.completed_nodes
      else s.completed_nodes ++ ["clarification"]) ∧
    ((lookup_schema_node c s).completed_nodes =
      match c.schemaLookup with
      | Except.ok _ => s.completed_nodes ++ ["lookup_schema"]
      | Except.error _ => s.completed_nodes) ∧
    ((generate_sql_node c s).completed_nodes =
      if s.question.isEmpty || !(truthy s.schema) then s.completed_nodes
      else
        match c.sqlGen s with
        | Except.ok _ => s.completed_nodes ++ ["generate_sql"]
        | Except.error _ => s.completed_nodes) ∧
    ((validate_sql_node c s).completed_nodes =
      if truthy s.generated_sql then s.completed_nodes ++ ["validate_sql"]
      else s.completed_nodes) ∧
    ((execute_sql_node c s).completed_nodes =
      if truthy s.validation_error then s.completed_nodes ++ ["execute_sql"]
      else if truthy s.validated_sql then
        match c.executor s with
        | ExecOutcome.raises _ => s.completed_nodes
        | ExecOutcome.errorResult _ => s.completed_nodes ++ ["execute_sql"]
        | ExecOutcome.ok _ => s.completed_nodes ++ ["execute_sql"]
      else s.completed_nodes) ∧
    ((fix_sql_error_node s).completed_nodes = s.completed_nodes) ∧
    ((summarize_node c s).completed_nodes = s.completed_nodes ++ ["summarize"]) ∧
    ((interpret_results_node c s).completed_nodes =
      s.completed_nodes ++ ["interpret_results"]) := by
  refine ⟨?_, ?_, ?_, ?_, ?_, ?_, ?_, ?_, ?_⟩ <;>
    simp only [intent_node, clarification_node, lookup_schema_node,
      generate_sql_node, validate_sql_node, execute_sql_node,
      fix_sql_error_node, summarize_node, interpret_results_node] <;>
    (repeat' split) <;> simp_all

/-- The run used for C1: max_retries is 1 and the generator always
produces a statement the keyword gate rejects, under a recursion limit
of 9 supplied through the run options. -/
def retryRun : RunOutcome :=
  runLoop badGenCollab 9 NodeName.intent (initial_state "list transactions" [] 1)

/-- C1 (code bug): no router decision increments `retry_count` — no
code in the repository ever writes it (formally, every node invocation
preserves it).  In the concrete run with `max_retries = 1` and a
persistently failing validation, the trace contains three backward
GenerateSQL-retry transitions, exceeding `max_retries`, with
`retry_count` still 0; the run is cut off by the recursion limit and
surfaces the engine-level GraphRecursionError instead of reaching the
Halted(error) exit. -/
theorem retry_count_never_incremented :
    (∀ (c : Collaborators) (n : NodeName) (s : AgentState),
      (applyNode c n s).retry_count = s.retry_count) ∧
    (∀ (c : Collaborators) (fuel : Nat) (n : NodeName) (s : AgentState),
      (runLoop c fuel n s).state.retry_count = s.retry_count) ∧
    countBackward retryRun.trace = 3 ∧
    1 < countBackward retryRun.trace ∧
    retryRun.state.retry_count = 0 ∧
    retryRun.finished = false ∧
    (run_agent_chat badGenCollab "list transactions" [] 1 9).error =
      some "GraphRecursionError" :=
  ⟨applyNode_retry_count, runLoop_retry_count, by decide, by decide, by decide,
   by decide, by decide⟩

/-- C2 (code bug): no code path ever sets `operation_not_permitted` —
the intent node only manages the clarification flags — so for every
collaborator behaviour, question, history and options the Result of
`run_agent_chat` carries `operation_not_permitted = false`; in the
concrete run on the question "delete all transactions" the pipeline
proceeds to SQL generation and the Result carries a generated SQL
statement. -/
theorem operation_not_permitted_never_set :
    (∀ (c : Collaborators) (q : String) (hist : List (String × String))
        (mr rl : Nat),
      (run_agent_chat c q hist mr rl).operation_not_permitted = false) ∧
    (run_agent_chat benignCollab "delete all transactions" [] 3 50).operation_not_permitted
        = false ∧
    truthy (run_agent_chat benignCollab "delete all transactions" [] 3 50).sql = true := by
  refine ⟨?_, by decide, by decide⟩
  intro c q hist mr rl
  unfold run_agent_chat
  have hop : (runLoop c rl NodeName.intent
      (initial_state q hist mr)).state.operation_not_permitted = false := by
    rw [runLoop_operation_not_permitted]; rfl
  cases hf : (runLoop c rl NodeName.intent (initial_state q hist mr)).finished <;>
    simp [hf, hop]

/-- A plausible suspended conversation, persisted under a thread id,
for the C3 amended theorem. -/
def savedClarificationState : AgentState :=
  { initial_state "show data" [("user", "show data")] 3 with
      clarification_needed := true
      clarification_question := some "Which table should I use?"
      completed_nodes := ["intent", "clarification"]
      history :=
        [("user", "show data"), ("assistant", "Which table should I use?")] }

/-- C3 counterexample: resuming a thread for which the checkpoint store
holds nothing does not fail with a no-conversation-to-resume error — it
silently starts a fresh run from the entry node (the trace is
non-empty) whose outcome here is the generic recursion-limit error
string. -/
theorem resume_counterexample :
    (continue_agent_chat benignCollab [] "thread-1" "last quarter").error =
      some "GraphRecursionError" ∧
    (continue_agent_chat benignCollab [] "thread-1" "last quarter").error ≠
      some "no conversation to resume" ∧
    (runLoop benignCollab 25 NodeName.intent
      (resume_update_state "last quarter")).trace ≠ [] := by
  refine ⟨by decide, by decide, by decide⟩

/-- C3 amended: `continue_agent_chat` never consults the persisted
checkpoint store or the thread id — it compiles a fresh in-memory
checkpointer per call — so for an empty (or any) store it silently
starts a fresh conversation from the entry node instead of failing
with a no-conversation-to-resume error; even with the suspended
conversation present in the store under the requested thread id, the
result is the fresh-run outcome. -/
theorem resume_ignores_checkpoint_store :
    (∀ (c : Collaborators) (store store2 : List (String × AgentState))
        (tid tid2 r : String),
      continue_agent_chat c store tid r = continue_agent_chat c store2 tid2 r) ∧
    (continue_agent_chat benignCollab [("thread-1", savedClarificationState)]
        "thread-1" "last quarter").error = some "GraphRecursionError" :=
  ⟨fun _ _ _ _ _ _ => rfl, by decide⟩

end AnalyticsAgent
